import Mathlib

/-!
# Verification of the decomp-dashboard match-report engine

A shallow embedding of the report model, filter/sort engine, expansion
state and view renderer of the `decomp-dashboard` Electron application.
The embedding follows the two rendering surfaces of the source —
`src/objdiff.js` (the standalone report page) and the dashboard section of
`src/renderer.js` — together with the `objdiff:run-report` IPC handler of
the main process.

Modelling conventions:
* JS numbers carrying match fractions are embedded as `ℚ` (all values the
  code manipulates are exact decimal fractions in `[0, 1]`).
* JS strings are Lean `String`s; JS `<` on strings is lexicographic
  comparison of the underlying character lists.
* `Array.prototype.sort` is guaranteed stable by ECMA-262, and with a
  consistent comparator it returns the unique stable sorted permutation;
  `List.insertionSort` computes exactly that permutation, so the in-place
  JS sort is embedded as `List.insertionSort` over the same comparator.
* DOM mutations (`classList`, `textContent`, `innerHTML`) are embedded as
  fields of an explicit state record; the table body's innerHTML is the
  structured list produced by the render projections below.
-/

namespace Decomp

/-- The JS `'asc' | 'desc'` strings held in `state.sortDirection`
(`objdiff.js` line 25, `renderer.js` line 14). -/
inductive SortDir where
  | asc
  | desc
deriving DecidableEq, Repr

/-- `state.sortDirection === 'asc' ? 'desc' : 'asc'`
(`objdiff.js` line 94, `renderer.js` line 446). -/
def SortDir.toggle : SortDir → SortDir
  | .asc => .desc
  | .desc => .asc

/-- One function's match record inside a unit, with the snake_case field
names of the report JSON that the rendering code reads
(`symbol.name`, `symbol.match_percent`, `symbol.base_size`,
`symbol.target_size`). -/
structure Symbol where
  name : String
  match_percent : ℚ
  base_size : ℕ
  target_size : ℕ
deriving DecidableEq, Repr

/-- One compiled object file's match record (`unit.name`,
`unit.match_percent`, `unit.symbols`). -/
structure Unit where
  name : String
  match_percent : ℚ
  symbols : List Symbol
deriving DecidableEq, Repr

/-- The report held in `state.report` / `state.dashboardReport`, with the
snake_case field names read by `renderSummary` / `renderDashboardSummary`.
`timestamp` is kept as the raw string; its locale formatting
(`new Date(timestamp).toLocaleString()`) is not modelled. -/
structure Report where
  total_progress : ℚ
  matched_objects : ℕ
  total_objects : ℕ
  timestamp : String
  units : List Unit
deriving DecidableEq, Repr

/-- ASCII lowering of one character, as JS `toLowerCase` acts on the
ASCII range (unit names are ASCII object-file paths). -/
def lowerChar (c : Char) : Char :=
  if 65 ≤ c.toNat ∧ c.toNat ≤ 90 then Char.ofNat (c.toNat + 32) else c

/-- JS `String.prototype.toLowerCase`, modelled on the ASCII range. -/
def toLowerCase (s : String) : String :=
  String.mk (s.data.map lowerChar)

/-- JS `a.includes(b)`: `b` occurs in `a` as a contiguous substring. -/
def jsIncludes (s pat : String) : Bool :=
  decide (pat.data <:+: s.data)

/-- The value of `a[state.sortKey]` inside the sort comparator: a JS
string, number, array, or `undefined`. -/
inductive JSVal where
  | str (s : String)
  | num (q : ℚ)
  | arr (l : List Symbol)
  | undefined
deriving DecidableEq

/-- JS `<` on the values the comparator can see.  Strings compare
lexicographically by code unit and numbers numerically; any comparison
involving `undefined` is false.  A fixed sort key always produces two
values of the same shape, so the cross-type coercions of JS `<` (and the
string coercion of the `symbols` array, by which no table column sorts)
never arise and are embedded as `false`. -/
def jsLt : JSVal → JSVal → Bool
  | .str a, .str b => decide (a.data < b.data)
  | .num a, .num b => decide (a < b)
  | _, _ => false

/-- Property lookup `a[state.sortKey]` on a unit object: the three
properties of a unit record, `undefined` for every other key. -/
def unitField (u : Unit) (key : String) : JSVal :=
  if key = "name" then .str u.name
  else if key = "match_percent" then .num u.match_percent
  else if key = "symbols" then .arr u.symbols
  else .undefined

/-- The comparator body of `sortUnits` (`objdiff.js` lines 108–115) and
`sortDashboardUnits` (`renderer.js` lines 457–463):
`valA < valB ? (asc ? -1 : 1) : valA > valB ? (asc ? 1 : -1) : 0`. -/
def unitCompare (key : String) (dir : SortDir) (a b : Unit) : ℤ :=
  let valA := unitField a key
  let valB := unitField b key
  if jsLt valA valB = true then (if dir = SortDir.asc then -1 else 1)
  else if jsLt valB valA = true then (if dir = SortDir.asc then 1 else -1)
  else 0

/-- `state.report.units.sort(comparator)`: the stable JS sort of the units
array under the comparator above, shared verbatim by both surfaces. -/
def sortUnits (key : String) (dir : SortDir) (units : List Unit) : List Unit :=
  List.insertionSort (fun a b => unitCompare key dir a b ≤ 0) units

/-- The unit filter applied by `renderTable` (`objdiff.js` lines 154–156)
and `renderDashboardTable` (`renderer.js` line 494):
`unit.name.toLowerCase().includes(filterQuery)`, where `filterQuery` was
lowercased by the input listener when it was stored. -/
def filterUnits (units : List Unit) (filterQuery : String) : List Unit :=
  units.filter (fun u => jsIncludes (toLowerCase u.name) filterQuery)

/-- JS `Number.prototype.toFixed(2)` for the non-negative values the
renderer formats: the integer `n` nearest `q * 100` (ties away from zero)
printed with exactly two decimal digits. -/
def toFixed2 (q : ℚ) : String :=
  let n : ℤ := ⌊q * 100 + 1 / 2⌋
  let ip : ℤ := n / 100
  let fp : ℕ := (n % 100).toNat
  toString ip ++ "." ++ (if fp < 10 then "0" ++ toString fp else toString fp)

/-- The renderer-side value of `window.electronAPI.objdiff.runReport()`:
an object carrying an `error` string and/or a `report`.  The main process
only ever returns non-empty error strings, so JS truthiness of
`result.error` coincides with the `Option` being `some`. -/
structure RunResult where
  error : Option String
  report : Option Report
deriving DecidableEq

/-- One `<tr>` emitted for a unit by `renderTable` /
`renderDashboardTable`: the class attribute and the three cell texts, in
template order. -/
structure UnitRow where
  rowClass : String
  name : String
  percentText : String
  statusClass : String
  statusLabel : String
deriving DecidableEq, Repr

/-- One element of the table body's innerHTML: a unit row or the details
row appended right after an expanded mismatched unit's row. -/
inductive TableItem where
  | unitRow (r : UnitRow)
  | detailsRow (lis : List String)
deriving DecidableEq, Repr

/-- The row-click delegation (`event.target.closest('tr.expandable')`)
reaches a row exactly when its class attribute carries `expandable`. -/
def isExpandableRow (r : UnitRow) : Bool :=
  jsIncludes r.rowClass "expandable"

namespace Objdiff

/-- The state of the standalone report page (`objdiff.js`): the `state`
object (lines 19–26) together with the DOM attributes the page mutates. -/
structure St where
  report : Option Report
  expandedRows : List String
  filterQuery : String
  sortKey : String
  sortDirection : SortDir
  summaryHidden : Bool
  tableHidden : Bool
  controlsHidden : Bool
  placeholderHidden : Bool
  placeholderText : String
  placeholderRed : Bool
  runBtnDisabled : Bool
  runBtnText : String
  filterInputValue : String
deriving DecidableEq

/-- `setLoadingState` (`objdiff.js` lines 213–226). -/
def setLoadingState (isLoading : Bool) (st : St) : St :=
  if isLoading then
    { st with
      runBtnDisabled := true, runBtnText := "Running...",
      placeholderText := "Executing objdiff-cli, this may take a moment...",
      placeholderRed := false, placeholderHidden := false,
      tableHidden := true, summaryHidden := true, controlsHidden := true }
  else
    { st with runBtnDisabled := false, runBtnText := "Run Verification Report" }

/-- `setErrorState` (`objdiff.js` lines 228–236). -/
def setErrorState (message : String) (st : St) : St :=
  { st with
    summaryHidden := true, tableHidden := true, controlsHidden := true,
    placeholderHidden := false, placeholderText := "Error: " ++ message,
    placeholderRed := true }

/-- `sortUnits` (`objdiff.js` lines 105–116): sorts the report's units in
place by the current sort key and direction; a no-op without a report. -/
def sortUnitsState (st : St) : St :=
  match st.report with
  | none => st
  | some rep =>
      { st with
        report :=
          some { rep with
                 units := Decomp.sortUnits st.sortKey st.sortDirection rep.units } }

/-- The visibility part of `render` (`objdiff.js` lines 119–138): with no
report, show the idle placeholder and hide summary, table and controls;
with a report, the reverse. -/
def render (st : St) : St :=
  match st.report with
  | none =>
      { st with
        summaryHidden := true, tableHidden := true, controlsHidden := true,
        placeholderHidden := false,
        placeholderText := "Click \"Run Verification Report\" to start.",
        placeholderRed := false }
  | some _ =>
      { st with
        summaryHidden := false, tableHidden := false, controlsHidden := false,
        placeholderHidden := true }

/-- `handleRunReport` (`objdiff.js` lines 57–79): shows the loading view,
then either applies the result (clearing expansion and filter, sorting,
re-rendering) or falls into `setErrorState`; `finally` restores the run
button. -/
def handleRunReport (result : RunResult) (st : St) : St :=
  let st0 := setLoadingState true st
  let st1 :=
    match result.error with
    | some msg => setErrorState msg st0
    | none =>
        match result.report with
        | none => setErrorState "The objdiff command did not return a valid report." st0
        | some rep =>
            let s := { st0 with
                       report := some rep, expandedRows := [],
                       filterQuery := "", filterInputValue := "" }
            render (sortUnitsState s)
  setLoadingState false st1

/-- `handleRowToggle` (`objdiff.js` lines 81–88): toggle membership of the
unit name in the expanded set. -/
def handleRowToggle (unitName : String) (st : St) : St :=
  if st.expandedRows.contains unitName then
    { st with expandedRows := st.expandedRows.erase unitName }
  else
    { st with expandedRows := st.expandedRows ++ [unitName] }

/-- `handleSort` (`objdiff.js` lines 91–102): the same key toggles the
direction, a new key is installed with ascending direction; then the units
are re-sorted and the view re-rendered. -/
def handleSort (newSortKey : String) (st : St) : St :=
  let st1 :=
    if st.sortKey = newSortKey then
      { st with sortDirection := st.sortDirection.toggle }
    else
      { st with sortKey := newSortKey, sortDirection := SortDir.asc }
  render (sortUnitsState st1)

/-- The filter-input listener (`objdiff.js` lines 43–46): stores the
lowercased input value; the table is then re-rendered from state. -/
def setFilterQuery (raw : String) (st : St) : St :=
  { st with filterQuery := Decomp.toLowerCase raw }

/-- One `<li>` of `renderDetailsRow` (`objdiff.js` line 186): name,
percentage to two decimals, and the two byte sizes. -/
def renderSymbolLi (s : Symbol) : String :=
  "<li class=\"font-mono text-xs py-1 px-2 border-b\"><strong>" ++ s.name
    ++ "</strong> - " ++ Decomp.toFixed2 (s.match_percent * 100) ++ "% ("
    ++ toString s.base_size ++ " / " ++ toString s.target_size ++ " bytes)</li>"

/-- The detail list of `renderDetailsRow` (`objdiff.js` lines 181–199):
one `<li>` per symbol with `match_percent < 1.0`. -/
def renderDetailsRowLis (u : Unit) : List String :=
  (u.symbols.filter (fun s => decide (s.match_percent < 1))).map renderSymbolLi

/-- The unit row built by `renderTable` (`objdiff.js` lines 158–172). -/
def unitRowOf (u : Unit) : UnitRow :=
  let isMismatch : Bool := decide (u.match_percent < 1)
  { rowClass := if isMismatch then "mismatch-row expandable" else "",
    name := u.name,
    percentText := Decomp.toFixed2 (u.match_percent * 100) ++ "%",
    statusClass := if isMismatch then "status-mismatch" else "status-matched",
    statusLabel := if isMismatch then "Mismatch" else "Matched" }

/-- The html contributed by one filtered unit inside `renderTable`'s loop
(`objdiff.js` lines 158–177): its row, then a details row when the unit is
mismatched and expanded. -/
def unitItems (st : St) (u : Unit) : List TableItem :=
  [TableItem.unitRow (unitRowOf u)]
    ++ (if decide (u.match_percent < 1) && st.expandedRows.contains u.name then
          [TableItem.detailsRow (renderDetailsRowLis u)]
        else [])

/-- `renderTable` (`objdiff.js` lines 151–179): filter the units, then
emit each one's rows into the table body. -/
def renderTableItems (st : St) : List TableItem :=
  match st.report with
  | none => []
  | some rep => (Decomp.filterUnits rep.units st.filterQuery).flatMap (unitItems st)

/-- The two summary texts written by `renderSummary`
(`objdiff.js` lines 140–149). -/
def summaryTexts (rep : Report) : String × String :=
  (Decomp.toFixed2 (rep.total_progress * 100) ++ "%",
   toString rep.matched_objects ++ " / " ++ toString rep.total_objects)

/-- The initial `state` object (`objdiff.js` lines 19–26) after the
initial `render()` call (line 239). -/
def initialState : St :=
  render
    { report := none, expandedRows := [], filterQuery := "",
      sortKey := "match_percent", sortDirection := SortDir.asc,
      summaryHidden := false, tableHidden := false, controlsHidden := false,
      placeholderHidden := false, placeholderText := "", placeholderRed := false,
      runBtnDisabled := false, runBtnText := "Run Verification Report",
      filterInputValue := "" }

end Objdiff

namespace Dash

/-- The dashboard slice of the `state` object of `renderer.js`
(lines 10–14) together with the dashboard DOM attributes it mutates. -/
structure St where
  dashboardReport : Option Report
  dashboardExpandedRows : List String
  dashboardFilterQuery : String
  dashboardSortKey : String
  dashboardSortDirection : SortDir
  summaryHidden : Bool
  tableHidden : Bool
  controlsHidden : Bool
  placeholderHidden : Bool
  placeholderText : String
  placeholderRed : Bool
  runBtnDisabled : Bool
  runBtnText : String
  filterInputValue : String
deriving DecidableEq

/-- `setDashboardLoadingState` (`renderer.js` lines 522–533).  Unlike the
standalone page it does not touch the controls section or the
placeholder's red styling. -/
def setDashboardLoadingState (isLoading : Bool) (st : St) : St :=
  if isLoading then
    { st with
      runBtnDisabled := true, runBtnText := "Running...",
      placeholderText := "Executing objdiff-cli...",
      placeholderHidden := false,
      tableHidden := true, summaryHidden := true }
  else
    { st with runBtnDisabled := false, runBtnText := "Run Verification Report" }

/-- `setDashboardErrorState` (`renderer.js` lines 535–538): only rewrites
the placeholder text and turns it red; visibility is whatever the
preceding loading state left. -/
def setDashboardErrorState (message : String) (st : St) : St :=
  { st with placeholderText := "Error: " ++ message, placeholderRed := true }

/-- `sortDashboardUnits` (`renderer.js` lines 455–464). -/
def sortDashboardUnitsState (st : St) : St :=
  match st.dashboardReport with
  | none => st
  | some rep =>
      { st with
        dashboardReport :=
          some { rep with
                 units := Decomp.sortUnits st.dashboardSortKey
                   st.dashboardSortDirection rep.units } }

/-- The visibility part of `renderDashboard` (`renderer.js` lines
466–482); the no-report branch leaves the placeholder text untouched. -/
def renderDashboard (st : St) : St :=
  match st.dashboardReport with
  | none =>
      { st with
        summaryHidden := true, tableHidden := true, controlsHidden := true,
        placeholderHidden := false }
  | some _ =>
      { st with
        summaryHidden := false, tableHidden := false, controlsHidden := false,
        placeholderHidden := true }

/-- `handleDashboardRunReport` (`renderer.js` lines 426–442).  Unlike the
standalone page there is no guard against a result that has neither an
error nor a report: `state.dashboardReport` is assigned whatever
`result.report` holds. -/
def handleDashboardRunReport (result : RunResult) (st : St) : St :=
  let st0 := setDashboardLoadingState true st
  let st1 :=
    match result.error with
    | some msg => setDashboardErrorState msg st0
    | none =>
        let s := { st0 with
                   dashboardReport := result.report, dashboardExpandedRows := [],
                   dashboardFilterQuery := "", filterInputValue := "" }
        renderDashboard (sortDashboardUnitsState s)
  setDashboardLoadingState false st1

/-- `handleDashboardSort` (`renderer.js` lines 444–453). -/
def handleDashboardSort (newSortKey : String) (st : St) : St :=
  let st1 :=
    if st.dashboardSortKey = newSortKey then
      { st with dashboardSortDirection := st.dashboardSortDirection.toggle }
    else
      { st with dashboardSortKey := newSortKey, dashboardSortDirection := SortDir.asc }
  renderDashboard (sortDashboardUnitsState st1)

/-- The dashboard filter-input listener (`renderer.js` line 679): stores
the lowercased input value. -/
def setDashboardFilterQuery (raw : String) (st : St) : St :=
  { st with dashboardFilterQuery := Decomp.toLowerCase raw }

/-- One detail `<li>` of `renderDashboardTable` (`renderer.js` line 506):
name and percentage only — the byte sizes are not rendered on this
surface. -/
def renderSymbolLi (s : Symbol) : String :=
  "<li class=\"font-mono text-xs py-1 px-2 border-b\"><strong>" ++ s.name
    ++ "</strong> - " ++ Decomp.toFixed2 (s.match_percent * 100) ++ "%</li>"

/-- The detail list of an expanded dashboard unit (`renderer.js` lines
505–506): one `<li>` per symbol with `match_percent < 1.0`. -/
def renderDetailsRowLis (u : Unit) : List String :=
  (u.symbols.filter (fun s => decide (s.match_percent < 1))).map renderSymbolLi

/-- The unit row built by `renderDashboardTable`
(`renderer.js` lines 496–503). -/
def unitRowOf (u : Unit) : UnitRow :=
  let isMismatch : Bool := decide (u.match_percent < 1)
  { rowClass := if isMismatch then "mismatch-row expandable" else "",
    name := u.name,
    percentText := Decomp.toFixed2 (u.match_percent * 100) ++ "%",
    statusClass := if isMismatch then "status-mismatch" else "status-matched",
    statusLabel := if isMismatch then "Mismatch" else "Matched" }

/-- The html contributed by one filtered unit inside
`renderDashboardTable`'s map (`renderer.js` lines 495–509). -/
def unitItems (st : St) (u : Unit) : List TableItem :=
  [TableItem.unitRow (unitRowOf u)]
    ++ (if decide (u.match_percent < 1) && st.dashboardExpandedRows.contains u.name then
          [TableItem.detailsRow (renderDetailsRowLis u)]
        else [])

/-- `renderDashboardTable` (`renderer.js` lines 493–511). -/
def renderTableItems (st : St) : List TableItem :=
  match st.dashboardReport with
  | none => []
  | some rep => (Decomp.filterUnits rep.units st.dashboardFilterQuery).flatMap (unitItems st)

/-- The two summary texts written by `renderDashboardSummary`
(`renderer.js` lines 484–491). -/
def summaryTexts (rep : Report) : String × String :=
  (Decomp.toFixed2 (rep.total_progress * 100) ++ "%",
   toString rep.matched_objects ++ " / " ++ toString rep.total_objects)

end Dash

namespace Main

/-- A parsed JSON value, the result of `JSON.parse(result.stdout)` in the
`objdiff:run-report` handler. -/
inductive Json where
  | null
  | bool (b : Bool)
  | num (q : ℚ)
  | str (s : String)
  | arr (elems : List Json)
  | obj (fields : List (String × Json))

/-- Whether a JSON object carries a field of the given name. -/
def Json.hasField : Json → String → Bool
  | .obj fields, key => fields.any (fun p => p.1 == key)
  | _, _ => false

/-- What the `objdiff:run-report` IPC handler resolves with: an object
with an `error` string or the raw parsed JSON under `report`. -/
structure RawRunResult where
  error : Option String
  report : Option Json

/-- The `objdiff:run-report` handler of the main process (`main.js`,
modelled on its inputs: the stored project path, the resolved objdiff
tool path, the subprocess exit code, and the outcome of
`JSON.parse(result.stdout)` — `none` when parsing throws, with
`parseErrMsg` the thrown message.  The parsed JSON is returned as the
report without any schema validation. -/
def runReportHandler (projectPath : Option String) (objdiffPath : Option String)
    (exitCode : ℤ) (parsedStdout : Option Json) (parseErrMsg : String) : RawRunResult :=
  match projectPath with
  | none => { error := some "Project path not set.", report := none }
  | some _ =>
      match objdiffPath with
      | none =>
          { error := some ("objdiff-cli.exe not found. Please set its path in Settings, "
              ++ "or place it in your project folder."), report := none }
      | some _ =>
          if exitCode ≠ 0 then
            { error := some "objdiff-cli command failed.", report := none }
          else
            match parsedStdout with
            | none =>
                { error := some ("Failed to run or parse report: " ++ parseErrMsg),
                  report := none }
            | some j => { error := none, report := some j }

end Main

/-! ## Generic facts about stable insertion sort -/

section StableSort

variable {α : Type*}

/-- An element related to everything in the list is inserted at the front. -/
theorem orderedInsert_eq_cons (r : α → α → Prop) [DecidableRel r] (x : α) (l : List α)
    (h : ∀ y ∈ l, r x y) : List.orderedInsert r x l = x :: l := by
  cases l with
  | nil => rfl
  | cons b l => exact List.orderedInsert_of_le r l (h b (List.mem_cons_self b l))

/-- An element related to nothing in the list sinks to the end. -/
theorem orderedInsert_eq_append (r : α → α → Prop) [DecidableRel r] (x : α) (l : List α)
    (h : ∀ y ∈ l, ¬ r x y) : List.orderedInsert r x l = l ++ [x] := by
  induction l with
  | nil => rfl
  | cons b l ih =>
      rw [show List.orderedInsert r x (b :: l)
          = if r x b then x :: b :: l else b :: List.orderedInsert r x l from rfl]
      rw [if_neg (h b (List.mem_cons_self b l))]
      rw [ih (fun y hy => h y (List.mem_cons_of_mem b hy))]
      rfl

/-- Sorting a list that holds `x` between a block it is unrelated to and a
block it is related to moves `x` to the front and sorts the rest. -/
theorem insertionSort_middle (r : α → α → Prop) [DecidableRel r] (x : α) :
    ∀ (u v : List α), (∀ a ∈ u, ¬ r a x) → (∀ y ∈ v, r x y) →
      List.insertionSort r (u ++ x :: v) = x :: List.insertionSort r (u ++ v)
  | [], v, _, hv => by
      simp only [List.nil_append]
      exact List.insertionSort_cons r hv
  | a :: u, v, hu, hv => by
      have ha : ¬ r a x := hu a (List.mem_cons_self a u)
      have ih := insertionSort_middle r x u v
        (fun b hb => hu b (List.mem_cons_of_mem a hb)) hv
      rw [show List.insertionSort r ((a :: u) ++ x :: v)
          = List.orderedInsert r a (List.insertionSort r (u ++ x :: v)) from rfl]
      rw [ih]
      rw [show List.orderedInsert r a (x :: List.insertionSort r (u ++ v))
          = if r a x then a :: x :: List.insertionSort r (u ++ v)
            else x :: List.orderedInsert r a (List.insertionSort r (u ++ v)) from rfl]
      rw [if_neg ha]
      rfl

/-- Stable sorting a list that is pairwise unrelated reverses it. -/
theorem insertionSort_eq_reverse (r : α → α → Prop) [DecidableRel r] :
    ∀ l : List α, l.Pairwise (fun a b => ¬ r a b) →
      List.insertionSort r l = l.reverse
  | [], _ => rfl
  | x :: xs, h => by
      rw [List.insertionSort, insertionSort_eq_reverse r xs h.of_cons]
      rw [orderedInsert_eq_append r x xs.reverse
        (fun y hy => List.rel_of_pairwise_cons h (List.mem_reverse.mp hy))]
      rw [List.reverse_cons]

/-- Stable re-sorting with the opposite comparator and back: ascending
after descending restores a list that was sorted ascending, because the
stable descending pass keeps tied elements in ascending-pass order. -/
theorem insertionSort_asc_of_desc (ra rd : α → α → Prop)
    [DecidableRel ra] [DecidableRel rd] (hdual : ∀ a b, rd a b ↔ ra b a) :
    ∀ l : List α, l.Pairwise ra →
      List.insertionSort ra (List.insertionSort rd l) = l
  | [], _ => rfl
  | x :: xs, h => by
      have hx : ∀ y ∈ xs, ra x y := fun y hy => List.rel_of_pairwise_cons h hy
      have ihs := insertionSort_asc_of_desc ra rd hdual xs h.of_cons
      rw [List.insertionSort, List.orderedInsert_eq_take_drop]
      set D := List.insertionSort rd xs with hD
      set u := D.takeWhile fun b => decide ¬ rd x b with hu
      set v := D.dropWhile fun b => decide ¬ rd x b with hv
      have hmemD : ∀ y ∈ D, y ∈ xs := fun y hy =>
        (List.perm_insertionSort rd xs).mem_iff.mp (hD ▸ hy)
      have h1 : ∀ a ∈ u, ¬ ra a x := by
        intro a hau
        have := List.mem_takeWhile_imp (hu ▸ hau)
        simpa [hdual] using this
      have h2 : ∀ y ∈ v, ra x y := fun y hyv =>
        hx y (hmemD y ((List.dropWhile_sublist _).mem (hv ▸ hyv)))
      rw [insertionSort_middle ra x u v h1 h2]
      rw [hu, hv, List.takeWhile_append_dropWhile, ihs]

/-- Stable sorting is idempotent for a total transitive comparator. -/
theorem insertionSort_idem (r : α → α → Prop) [DecidableRel r]
    (htot : ∀ a b, r a b ∨ r b a) (htrans : ∀ a b c, r a b → r b c → r a c)
    (l : List α) :
    List.insertionSort r (List.insertionSort r l) = List.insertionSort r l :=
  haveI : IsTotal α r := ⟨htot⟩
  haveI : IsTrans α r := ⟨fun a b c => htrans a b c⟩
  (List.sorted_insertionSort r l).insertionSort_eq

/-- Sorting with a comparator that relates everything is the identity. -/
theorem insertionSort_of_rel_total (r : α → α → Prop) [DecidableRel r]
    (h : ∀ a b, r a b) : ∀ l : List α, List.insertionSort r l = l
  | [] => rfl
  | x :: xs => by
      rw [List.insertionSort_cons r (fun b _ => h x b)]
      rw [insertionSort_of_rel_total r h xs]

end StableSort

/-! ## The comparator as an order relation -/

theorem unitField_name (u : Unit) : unitField u "name" = JSVal.str u.name := by
  simp [unitField]

theorem unitField_mp (u : Unit) :
    unitField u "match_percent" = JSVal.num u.match_percent := by
  simp [unitField]

theorem unitField_other (u : Unit) (key : String) (h1 : key ≠ "name")
    (h2 : key ≠ "match_percent") (h3 : key ≠ "symbols") :
    unitField u key = JSVal.undefined := by
  simp [unitField, h1, h2, h3]

theorem unitCompare_mp_asc_le (a b : Unit) :
    unitCompare "match_percent" SortDir.asc a b ≤ 0 ↔
      a.match_percent ≤ b.match_percent := by
  simp only [unitCompare, unitField_mp, jsLt, decide_eq_true_eq]
  split_ifs with h1 h2
  · norm_num [h1.le]
  · norm_num [not_le.mpr h2]
  · norm_num [le_of_not_lt h2]

theorem unitCompare_mp_desc_le (a b : Unit) :
    unitCompare "match_percent" SortDir.desc a b ≤ 0 ↔
      b.match_percent ≤ a.match_percent := by
  have hd1 : (if SortDir.desc = SortDir.asc then (-1 : ℤ) else 1) = 1 := rfl
  have hd2 : (if SortDir.desc = SortDir.asc then (1 : ℤ) else -1) = -1 := rfl
  simp only [unitCompare, unitField_mp, jsLt, decide_eq_true_eq, hd1, hd2]
  split_ifs with h1 h2
  · norm_num [not_le.mpr h1]
  · norm_num [h2.le]
  · norm_num [le_of_not_lt h1]

theorem unitCompare_name_asc_le (a b : Unit) :
    unitCompare "name" SortDir.asc a b ≤ 0 ↔ a.name ≤ b.name := by
  simp only [unitCompare, unitField_name, jsLt, decide_eq_true_eq, ← String.lt_iff]
  split_ifs with h1 h2
  · norm_num [h1.le]
  · norm_num [not_le.mpr h2]
  · norm_num [le_of_not_lt h2]

theorem unitCompare_name_desc_le (a b : Unit) :
    unitCompare "name" SortDir.desc a b ≤ 0 ↔ b.name ≤ a.name := by
  have hd1 : (if SortDir.desc = SortDir.asc then (-1 : ℤ) else 1) = 1 := rfl
  have hd2 : (if SortDir.desc = SortDir.asc then (1 : ℤ) else -1) = -1 := rfl
  simp only [unitCompare, unitField_name, jsLt, decide_eq_true_eq, hd1, hd2,
    ← String.lt_iff]
  split_ifs with h1 h2
  · norm_num [not_le.mpr h1]
  · norm_num [h2.le]
  · norm_num [le_of_not_lt h1]

theorem unitCompare_other_eq_zero (key : String) (h1 : key ≠ "name")
    (h2 : key ≠ "match_percent") (h3 : key ≠ "symbols") (dir : SortDir)
    (a b : Unit) : unitCompare key dir a b = 0 := by
  simp [unitCompare, unitField_other _ key h1 h2 h3, jsLt]

/-! ## The behaviour of `sortUnits` -/

/-- The ascending `match_percent` sort leaves the units in nondecreasing
`match_percent` order. -/
theorem sortUnits_mp_asc_pairwise (units : List Unit) :
    (sortUnits "match_percent" SortDir.asc units).Pairwise
      (fun a b => a.match_percent ≤ b.match_percent) := by
  haveI : IsTotal Unit (fun a b => unitCompare "match_percent" SortDir.asc a b ≤ 0) :=
    ⟨fun a b => by
      rw [unitCompare_mp_asc_le, unitCompare_mp_asc_le]
      exact le_total _ _⟩
  haveI : IsTrans Unit (fun a b => unitCompare "match_percent" SortDir.asc a b ≤ 0) :=
    ⟨fun a b c hab hbc => by
      rw [unitCompare_mp_asc_le] at hab hbc ⊢
      exact le_trans hab hbc⟩
  exact (List.sorted_insertionSort _ units).imp
    (fun h => (unitCompare_mp_asc_le _ _).mp h)

/-- Sorting does not lose, add or duplicate units. -/
theorem sortUnits_perm (key : String) (dir : SortDir) (units : List Unit) :
    (sortUnits key dir units).Perm units :=
  List.perm_insertionSort _ units

/-- With pairwise-distinct `match_percent` values, a descending pass after
the ascending pass produces the exact reverse order. -/
theorem sortUnits_mp_desc_reverse (units : List Unit)
    (h : units.Pairwise (fun a b => a.match_percent ≠ b.match_percent)) :
    sortUnits "match_percent" SortDir.desc (sortUnits "match_percent" SortDir.asc units)
      = (sortUnits "match_percent" SortDir.asc units).reverse := by
  apply insertionSort_eq_reverse
  have hle := sortUnits_mp_asc_pairwise units
  have hne : (sortUnits "match_percent" SortDir.asc units).Pairwise
      (fun a b => a.match_percent ≠ b.match_percent) :=
    ((sortUnits_perm _ _ units).pairwise_iff (fun hxy => hxy.symm)).mpr h
  refine (hle.and hne).imp ?_
  rintro a b ⟨hab, hne'⟩
  rw [unitCompare_mp_desc_le]
  exact not_le.mpr (lt_of_le_of_ne hab hne')

/-- An ascending pass after a descending pass restores the ascending
order exactly, ties included. -/
theorem sortUnits_mp_asc_of_desc (units : List Unit) :
    sortUnits "match_percent" SortDir.asc
        (sortUnits "match_percent" SortDir.desc
          (sortUnits "match_percent" SortDir.asc units))
      = sortUnits "match_percent" SortDir.asc units := by
  apply insertionSort_asc_of_desc
    (fun a b => unitCompare "match_percent" SortDir.asc a b ≤ 0)
    (fun a b => unitCompare "match_percent" SortDir.desc a b ≤ 0)
  · intro a b
    rw [unitCompare_mp_desc_le, unitCompare_mp_asc_le]
  · exact (sortUnits_mp_asc_pairwise units).imp
      (fun h => (unitCompare_mp_asc_le _ _).mpr h)

/-- Repeating a sort with the same recognised key and direction changes
nothing. -/
theorem sortUnits_idem (key : String) (dir : SortDir) (units : List Unit)
    (hkey : key = "name" ∨ key = "match_percent") :
    sortUnits key dir (sortUnits key dir units) = sortUnits key dir units := by
  rcases hkey with hk | hk <;> subst hk <;> cases dir
  · exact insertionSort_idem _
      (fun a b => by
        rw [unitCompare_name_asc_le, unitCompare_name_asc_le]; exact le_total _ _)
      (fun a b c hab hbc => by
        rw [unitCompare_name_asc_le] at hab hbc ⊢; exact le_trans hab hbc) units
  · exact insertionSort_idem _
      (fun a b => by
        rw [unitCompare_name_desc_le, unitCompare_name_desc_le]; exact le_total _ _)
      (fun a b c hab hbc => by
        rw [unitCompare_name_desc_le] at hab hbc ⊢; exact le_trans hbc hab) units
  · exact insertionSort_idem _
      (fun a b => by
        rw [unitCompare_mp_asc_le, unitCompare_mp_asc_le]; exact le_total _ _)
      (fun a b c hab hbc => by
        rw [unitCompare_mp_asc_le] at hab hbc ⊢; exact le_trans hab hbc) units
  · exact insertionSort_idem _
      (fun a b => by
        rw [unitCompare_mp_desc_le, unitCompare_mp_desc_le]; exact le_total _ _)
      (fun a b c hab hbc => by
        rw [unitCompare_mp_desc_le] at hab hbc ⊢; exact le_trans hbc hab) units

/-- Sorting by an unrecognised key is a no-op: every lookup is
`undefined`, the comparator returns `0` on every pair, and a stable sort
with an all-ties comparator preserves the order. -/
theorem sortUnits_other_eq_self (key : String) (h1 : key ≠ "name")
    (h2 : key ≠ "match_percent") (h3 : key ≠ "symbols") (dir : SortDir)
    (units : List Unit) : sortUnits key dir units = units := by
  apply insertionSort_of_rel_total
  intro a b
  rw [unitCompare_other_eq_zero key h1 h2 h3 dir a b]

/-! ## Formatting and filtering facts -/

/-- `toFixed(2)` of a whole number prints the number and `.00`. -/
theorem toFixed2_intCast (k : ℤ) : toFixed2 (k : ℚ) = toString k ++ "." ++ "00" := by
  have hfl : ⌊(k : ℚ) * 100 + 1 / 2⌋ = 100 * k := by
    have h1 : ((k : ℚ) * 100 + 1 / 2) = ((100 * k : ℤ) : ℚ) + 1 / 2 := by
      push_cast; ring
    have h2 : ⌊((100 * k : ℤ) : ℚ) + 1 / 2⌋ = 100 * k + ⌊(1 / 2 : ℚ)⌋ :=
      Int.floor_int_add _ _
    have h3 : ⌊(1 / 2 : ℚ)⌋ = 0 := by
      rw [Int.floor_eq_zero_iff]
      constructor <;> norm_num
    rw [h1, h2, h3, add_zero]
  have hdiv : (100 * k) / 100 = k := by omega
  have hmod : ((100 * k) % 100).toNat = 0 := by omega
  simp only [toFixed2, hfl, hdiv, hmod]
  rfl

/-- The empty list is a contiguous substring of every list. -/
theorem nil_isInfix {γ : Type*} (l : List γ) : [] <:+: l :=
  ⟨[], l, by simp⟩

/-- Membership in the filtered view, unfolded to the substring relation. -/
theorem mem_filterUnits (units : List Unit) (fq : String) (u : Unit) :
    u ∈ filterUnits units fq ↔ u ∈ units ∧ fq.data <:+: (toLowerCase u.name).data := by
  simp [filterUnits, jsIncludes, List.mem_filter]

/-- The empty query keeps every unit. -/
theorem filterUnits_empty (units : List Unit) : filterUnits units "" = units := by
  apply List.filter_eq_self.mpr
  intro u _
  simp [jsIncludes, nil_isInfix]

/-- The filtered view is an order-preserving subsequence of the units. -/
theorem filterUnits_sublist (units : List Unit) (fq : String) :
    (filterUnits units fq).Sublist units :=
  List.filter_sublist units

/-- Lowercasing the empty string gives the empty string. -/
theorem toLowerCase_empty : toLowerCase "" = "" := rfl

namespace Objdiff

theorem render_report (st : St) : (render st).report = st.report := by
  cases h : st.report <;> simp [render, h]

theorem render_sortKey (st : St) : (render st).sortKey = st.sortKey := by
  cases h : st.report <;> simp [render, h]

theorem render_sortDirection (st : St) :
    (render st).sortDirection = st.sortDirection := by
  cases h : st.report <;> simp [render, h]

theorem render_expandedRows (st : St) :
    (render st).expandedRows = st.expandedRows := by
  cases h : st.report <;> simp [render, h]

theorem render_filterQuery (st : St) : (render st).filterQuery = st.filterQuery := by
  cases h : st.report <;> simp [render, h]

theorem sortUnitsState_sortKey (st : St) : (sortUnitsState st).sortKey = st.sortKey := by
  cases h : st.report <;> simp [sortUnitsState, h]

theorem sortUnitsState_sortDirection (st : St) :
    (sortUnitsState st).sortDirection = st.sortDirection := by
  cases h : st.report <;> simp [sortUnitsState, h]

theorem sortUnitsState_expandedRows (st : St) :
    (sortUnitsState st).expandedRows = st.expandedRows := by
  cases h : st.report <;> simp [sortUnitsState, h]

theorem sortUnitsState_filterQuery (st : St) :
    (sortUnitsState st).filterQuery = st.filterQuery := by
  cases h : st.report <;> simp [sortUnitsState, h]

/-- On a successful run the report is installed sorted by the current
sort parameters. -/
theorem handleRunReport_success_report (st : St) (rep : Report) :
    (handleRunReport ⟨none, some rep⟩ st).report =
      some { rep with units := Decomp.sortUnits st.sortKey st.sortDirection rep.units } := by
  simp [handleRunReport, setLoadingState, render_report, sortUnitsState]

theorem handleRunReport_success_expandedRows (st : St) (rep : Report) :
    (handleRunReport ⟨none, some rep⟩ st).expandedRows = [] := by
  simp [handleRunReport, setLoadingState, render_expandedRows, sortUnitsState_expandedRows]

theorem handleRunReport_success_filterQuery (st : St) (rep : Report) :
    (handleRunReport ⟨none, some rep⟩ st).filterQuery = "" := by
  simp [handleRunReport, setLoadingState, render_filterQuery, sortUnitsState_filterQuery]

theorem handleRunReport_success_sortKey (st : St) (rep : Report) :
    (handleRunReport ⟨none, some rep⟩ st).sortKey = st.sortKey := by
  simp [handleRunReport, setLoadingState, render_sortKey, sortUnitsState_sortKey]

theorem handleRunReport_success_sortDirection (st : St) (rep : Report) :
    (handleRunReport ⟨none, some rep⟩ st).sortDirection = st.sortDirection := by
  simp [handleRunReport, setLoadingState, render_sortDirection, sortUnitsState_sortDirection]

/-- On a failed run the stale report object stays in `state.report`. -/
theorem handleRunReport_error_report (st : St) (msg : String) (rep? : Option Report) :
    (handleRunReport ⟨some msg, rep?⟩ st).report = st.report := by
  simp [handleRunReport, setLoadingState, setErrorState]

theorem handleRunReport_error_view (st : St) (msg : String) (rep? : Option Report) :
    (handleRunReport ⟨some msg, rep?⟩ st).placeholderText = "Error: " ++ msg
      ∧ (handleRunReport ⟨some msg, rep?⟩ st).summaryHidden = true
      ∧ (handleRunReport ⟨some msg, rep?⟩ st).tableHidden = true
      ∧ (handleRunReport ⟨some msg, rep?⟩ st).placeholderHidden = false
      ∧ (handleRunReport ⟨some msg, rep?⟩ st).placeholderRed = true := by
  simp [handleRunReport, setLoadingState, setErrorState]

/-- A result with neither an error nor a report trips the renderer's own
guard and lands in the same error path. -/
theorem handleRunReport_noreport (st : St) :
    (handleRunReport ⟨none, none⟩ st).report = st.report
      ∧ (handleRunReport ⟨none, none⟩ st).placeholderText
          = "Error: The objdiff command did not return a valid report." := by
  simp [handleRunReport, setLoadingState, setErrorState]

end Objdiff

namespace Dash

theorem renderDashboard_report (st : St) :
    (renderDashboard st).dashboardReport = st.dashboardReport := by
  cases h : st.dashboardReport <;> simp [renderDashboard, h]

theorem renderDashboard_expandedRows (st : St) :
    (renderDashboard st).dashboardExpandedRows = st.dashboardExpandedRows := by
  cases h : st.dashboardReport <;> simp [renderDashboard, h]

theorem renderDashboard_filterQuery (st : St) :
    (renderDashboard st).dashboardFilterQuery = st.dashboardFilterQuery := by
  cases h : st.dashboardReport <;> simp [renderDashboard, h]

theorem renderDashboard_sortKey (st : St) :
    (renderDashboard st).dashboardSortKey = st.dashboardSortKey := by
  cases h : st.dashboardReport <;> simp [renderDashboard, h]

theorem renderDashboard_sortDirection (st : St) :
    (renderDashboard st).dashboardSortDirection = st.dashboardSortDirection := by
  cases h : st.dashboardReport <;> simp [renderDashboard, h]

theorem sortDashboardUnitsState_expandedRows (st : St) :
    (sortDashboardUnitsState st).dashboardExpandedRows = st.dashboardExpandedRows := by
  cases h : st.dashboardReport <;> simp [sortDashboardUnitsState, h]

theorem sortDashboardUnitsState_filterQuery (st : St) :
    (sortDashboardUnitsState st).dashboardFilterQuery = st.dashboardFilterQuery := by
  cases h : st.dashboardReport <;> simp [sortDashboardUnitsState, h]

theorem sortDashboardUnitsState_sortKey (st : St) :
    (sortDashboardUnitsState st).dashboardSortKey = st.dashboardSortKey := by
  cases h : st.dashboardReport <;> simp [sortDashboardUnitsState, h]

theorem sortDashboardUnitsState_sortDirection (st : St) :
    (sortDashboardUnitsState st).dashboardSortDirection = st.dashboardSortDirection := by
  cases h : st.dashboardReport <;> simp [sortDashboardUnitsState, h]

theorem handleDashboardRunReport_success_expandedRows (st : St) (rep : Report) :
    (handleDashboardRunReport ⟨none, some rep⟩ st).dashboardExpandedRows = [] := by
  simp [handleDashboardRunReport, setDashboardLoadingState,
    renderDashboard_expandedRows, sortDashboardUnitsState_expandedRows]

theorem handleDashboardRunReport_success_filterQuery (st : St) (rep : Report) :
    (handleDashboardRunReport ⟨none, some rep⟩ st).dashboardFilterQuery = "" := by
  simp [handleDashboardRunReport, setDashboardLoadingState,
    renderDashboard_filterQuery, sortDashboardUnitsState_filterQuery]

/-- On a failed run the stale report stays in `state.dashboardReport`,
and the error view shows because the loading state's hiding is never
undone. -/
theorem handleDashboardRunReport_error (st : St) (msg : String) (rep? : Option Report) :
    (handleDashboardRunReport ⟨some msg, rep?⟩ st).dashboardReport = st.dashboardReport
      ∧ (handleDashboardRunReport ⟨some msg, rep?⟩ st).placeholderText = "Error: " ++ msg
      ∧ (handleDashboardRunReport ⟨some msg, rep?⟩ st).summaryHidden = true
      ∧ (handleDashboardRunReport ⟨some msg, rep?⟩ st).tableHidden = true
      ∧ (handleDashboardRunReport ⟨some msg, rep?⟩ st).placeholderHidden = false
      ∧ (handleDashboardRunReport ⟨some msg, rep?⟩ st).placeholderRed = true := by
  simp [handleDashboardRunReport, setDashboardLoadingState, setDashboardErrorState]

end Dash

/-! ## The concrete report of the spec's scenario -/

/-- Unit `a.o` of the spec's concrete scenario: fully matched, no
symbols. -/
def unitA : Unit := { name := "a.o", match_percent := 1, symbols := [] }

/-- Symbol `fn1` of the scenario: fully mismatched, 100 against 120
bytes. -/
def fn1 : Symbol := { name := "fn1", match_percent := 0, base_size := 100, target_size := 120 }

/-- Symbol `fn2` of the scenario: fully matched. -/
def fn2 : Symbol := { name := "fn2", match_percent := 1, base_size := 40, target_size := 40 }

/-- Unit `b.o` of the scenario: a quarter matched, two symbols. -/
def unitB : Unit := { name := "b.o", match_percent := 0.25, symbols := [fn1, fn2] }

/-- The two-unit report of the spec's concrete scenario. -/
def sampleReport : Report :=
  { total_progress := 0.5, matched_objects := 1, total_objects := 2,
    timestamp := "2024-01-01T00:00:00Z", units := [unitA, unitB] }

/-- The standalone page's state right after the scenario's report was
acquired into the initial state. -/
def loadedState : Objdiff.St :=
  Objdiff.handleRunReport ⟨none, some sampleReport⟩ Objdiff.initialState

/-- A concrete dashboard state with the scenario's report loaded and
`b.o` expanded. -/
def sampleDashState : Dash.St :=
  { dashboardReport := some sampleReport, dashboardExpandedRows := ["b.o"],
    dashboardFilterQuery := "", dashboardSortKey := "match_percent",
    dashboardSortDirection := SortDir.asc,
    summaryHidden := false, tableHidden := false, controlsHidden := false,
    placeholderHidden := true, placeholderText := "", placeholderRed := false,
    runBtnDisabled := false, runBtnText := "Run Verification Report",
    filterInputValue := "" }

/-! ## Evaluating the scenario -/

theorem sortUnits_sample :
    sortUnits "match_percent" SortDir.asc [unitA, unitB] = [unitB, unitA] := by
  have h : ¬ (unitCompare "match_percent" SortDir.asc unitA unitB ≤ 0) := by
    rw [unitCompare_mp_asc_le]
    norm_num [unitA, unitB]
  rw [show sortUnits "match_percent" SortDir.asc [unitA, unitB]
      = if (unitCompare "match_percent" SortDir.asc unitA unitB ≤ 0)
        then [unitA, unitB] else [unitB, unitA] from rfl]
  rw [if_neg h]

theorem loadedState_report :
    loadedState.report = some { sampleReport with units := [unitB, unitA] } := by
  rw [loadedState, Objdiff.handleRunReport_success_report]
  rw [show Objdiff.initialState.sortKey = "match_percent" from rfl]
  rw [show Objdiff.initialState.sortDirection = SortDir.asc from rfl]
  rw [show sampleReport.units = [unitA, unitB] from rfl]
  rw [sortUnits_sample]

theorem rowA_class : (Objdiff.unitRowOf unitA).rowClass = "" := by
  norm_num [Objdiff.unitRowOf, unitA]

theorem rowA_not_expandable : isExpandableRow (Objdiff.unitRowOf unitA) = false := by
  rw [isExpandableRow, rowA_class]
  decide

theorem summary_sample : Objdiff.summaryTexts sampleReport = ("50.00%", "1 / 2") := by
  have h : toFixed2 (sampleReport.total_progress * 100) = "50" ++ "." ++ "00" := by
    have h2 : sampleReport.total_progress * 100 = ((50 : ℤ) : ℚ) := by
      norm_num [sampleReport]
    rw [h2, toFixed2_intCast]
    rfl
  simp only [Objdiff.summaryTexts, h]
  rfl

theorem renderSymbolLi_fn1 :
    Objdiff.renderSymbolLi fn1
      = "<li class=\"font-mono text-xs py-1 px-2 border-b\"><strong>fn1</strong> - 0.00% (100 / 120 bytes)</li>" := by
  have h : toFixed2 (fn1.match_percent * 100) = "0" ++ "." ++ "00" := by
    have h2 : fn1.match_percent * 100 = ((0 : ℤ) : ℚ) := by norm_num [fn1]
    rw [h2, toFixed2_intCast]
    rfl
  simp only [Objdiff.renderSymbolLi, h]
  rfl

theorem handleRowToggle_report (n : String) (st : Objdiff.St) :
    (Objdiff.handleRowToggle n st).report = st.report := by
  unfold Objdiff.handleRowToggle
  split <;> rfl

theorem handleRowToggle_filterQuery (n : String) (st : Objdiff.St) :
    (Objdiff.handleRowToggle n st).filterQuery = st.filterQuery := by
  unfold Objdiff.handleRowToggle
  split <;> rfl

theorem loadedState_expandedRows : loadedState.expandedRows = [] := by
  rw [loadedState]
  exact Objdiff.handleRunReport_success_expandedRows _ _

theorem loadedState_filterQuery : loadedState.filterQuery = "" := by
  rw [loadedState]
  exact Objdiff.handleRunReport_success_filterQuery _ _

theorem toggled_expandedRows :
    (Objdiff.handleRowToggle "b.o" loadedState).expandedRows = ["b.o"] := by
  simp [Objdiff.handleRowToggle, loadedState_expandedRows]

theorem tableItems_sample :
    Objdiff.renderTableItems (Objdiff.handleRowToggle "b.o" loadedState)
      = [TableItem.unitRow (Objdiff.unitRowOf unitB),
         TableItem.detailsRow [Objdiff.renderSymbolLi fn1],
         TableItem.unitRow (Objdiff.unitRowOf unitA)] := by
  have hq : (0.25 : ℚ) < 1 := by norm_num
  have hq2 : ¬ ((1 : ℚ) < 1) := lt_irrefl 1
  have hq3 : (0 : ℚ) < 1 := by norm_num
  rw [Objdiff.renderTableItems]
  rw [handleRowToggle_report, loadedState_report]
  simp only [handleRowToggle_filterQuery, loadedState_filterQuery, filterUnits_empty]
  simp [Objdiff.unitItems, toggled_expandedRows, unitA, unitB, fn1, fn2, hq, hq2, hq3,
    Objdiff.renderDetailsRowLis]

/-! ## Substring facts about the detail templates -/

theorem name_in_li (s : Symbol) : s.name.data <:+: (Objdiff.renderSymbolLi s).data := by
  refine ⟨"<li class=\"font-mono text-xs py-1 px-2 border-b\"><strong>".data,
    ("</strong> - " ++ toFixed2 (s.match_percent * 100) ++ "% ("
      ++ toString s.base_size ++ " / " ++ toString s.target_size ++ " bytes)</li>").data, ?_⟩
  simp [Objdiff.renderSymbolLi, String.data_append, List.append_assoc]

theorem pct_in_li (s : Symbol) :
    (toFixed2 (s.match_percent * 100)).data <:+: (Objdiff.renderSymbolLi s).data := by
  refine ⟨("<li class=\"font-mono text-xs py-1 px-2 border-b\"><strong>" ++ s.name
      ++ "</strong> - ").data,
    ("% (" ++ toString s.base_size ++ " / " ++ toString s.target_size
      ++ " bytes)</li>").data, ?_⟩
  simp [Objdiff.renderSymbolLi, String.data_append, List.append_assoc]

theorem base_in_li (s : Symbol) :
    (toString s.base_size).data <:+: (Objdiff.renderSymbolLi s).data := by
  refine ⟨("<li class=\"font-mono text-xs py-1 px-2 border-b\"><strong>" ++ s.name
      ++ "</strong> - " ++ toFixed2 (s.match_percent * 100) ++ "% (").data,
    (" / " ++ toString s.target_size ++ " bytes)</li>").data, ?_⟩
  simp [Objdiff.renderSymbolLi, String.data_append, List.append_assoc]

theorem target_in_li (s : Symbol) :
    (toString s.target_size).data <:+: (Objdiff.renderSymbolLi s).data := by
  refine ⟨("<li class=\"font-mono text-xs py-1 px-2 border-b\"><strong>" ++ s.name
      ++ "</strong> - " ++ toFixed2 (s.match_percent * 100) ++ "% ("
      ++ toString s.base_size ++ " / ").data, " bytes)</li>".data, ?_⟩
  simp [Objdiff.renderSymbolLi, String.data_append, List.append_assoc]

theorem name_in_dash_li (s : Symbol) :
    s.name.data <:+: (Dash.renderSymbolLi s).data := by
  refine ⟨"<li class=\"font-mono text-xs py-1 px-2 border-b\"><strong>".data,
    ("</strong> - " ++ toFixed2 (s.match_percent * 100) ++ "%</li>").data, ?_⟩
  simp [Dash.renderSymbolLi, String.data_append, List.append_assoc]

theorem pct_in_dash_li (s : Symbol) :
    (toFixed2 (s.match_percent * 100)).data <:+: (Dash.renderSymbolLi s).data := by
  refine ⟨("<li class=\"font-mono text-xs py-1 px-2 border-b\"><strong>" ++ s.name
      ++ "</strong> - ").data, "%</li>".data, ?_⟩
  simp [Dash.renderSymbolLi, String.data_append, List.append_assoc]

/-! ## The claims -/

/-- C1: sorting by `match_percent` ascending and then clicking the same
header again yields the exact reverse order when no two units share a
`match_percent`; with duplicates, an ascending pass after a descending
pass restores the ascending order exactly, and repeating a sort with the
same key and direction is idempotent; clicking the same sort key toggles
the direction while clicking a different key installs it with ascending
direction — on both surfaces. -/
theorem claim_C1_sort_toggle :
    (∀ units : List Unit,
        units.Pairwise (fun a b => a.match_percent ≠ b.match_percent) →
        sortUnits "match_percent" SortDir.desc (sortUnits "match_percent" SortDir.asc units)
          = (sortUnits "match_percent" SortDir.asc units).reverse)
  ∧ (∀ units : List Unit,
        sortUnits "match_percent" SortDir.asc
            (sortUnits "match_percent" SortDir.desc
              (sortUnits "match_percent" SortDir.asc units))
          = sortUnits "match_percent" SortDir.asc units)
  ∧ (∀ (key : String) (dir : SortDir) (units : List Unit),
        key = "name" ∨ key = "match_percent" →
        sortUnits key dir (sortUnits key dir units) = sortUnits key dir units)
  ∧ (∀ (st : Objdiff.St) (key : String),
        (Objdiff.handleSort key st).sortKey = key
      ∧ (st.sortKey = key →
          (Objdiff.handleSort key st).sortDirection = st.sortDirection.toggle)
      ∧ (st.sortKey ≠ key →
          (Objdiff.handleSort key st).sortDirection = SortDir.asc))
  ∧ (∀ (dst : Dash.St) (key : String),
        (Dash.handleDashboardSort key dst).dashboardSortKey = key
      ∧ (dst.dashboardSortKey = key →
          (Dash.handleDashboardSort key dst).dashboardSortDirection
            = dst.dashboardSortDirection.toggle)
      ∧ (dst.dashboardSortKey ≠ key →
          (Dash.handleDashboardSort key dst).dashboardSortDirection = SortDir.asc)) := by
  refine ⟨sortUnits_mp_desc_reverse, sortUnits_mp_asc_of_desc, ?_, ?_, ?_⟩
  · intro key dir units hkey
    exact sortUnits_idem key dir units hkey
  · intro st key
    refine ⟨?_, ?_, ?_⟩
    · by_cases h : st.sortKey = key <;>
        simp [Objdiff.handleSort, h, Objdiff.render_sortKey, Objdiff.sortUnitsState_sortKey]
    · intro h
      simp [Objdiff.handleSort, h, Objdiff.render_sortDirection,
        Objdiff.sortUnitsState_sortDirection]
    · intro h
      simp [Objdiff.handleSort, h, Objdiff.render_sortDirection,
        Objdiff.sortUnitsState_sortDirection]
  · intro dst key
    refine ⟨?_, ?_, ?_⟩
    · by_cases h : dst.dashboardSortKey = key <;>
        simp [Dash.handleDashboardSort, h, Dash.renderDashboard_sortKey,
          Dash.sortDashboardUnitsState_sortKey]
    · intro h
      simp [Dash.handleDashboardSort, h, Dash.renderDashboard_sortDirection,
        Dash.sortDashboardUnitsState_sortDirection]
    · intro h
      simp [Dash.handleDashboardSort, h, Dash.renderDashboard_sortDirection,
        Dash.sortDashboardUnitsState_sortDirection]

/-- C2: the filtered view keeps a unit exactly when the lowercased unit
name contains the lowercased query as a substring; the empty query keeps
every unit; and the filtered view is an order-preserving subsequence of
the canonical units sequence, which the filter itself never reorders. -/
theorem claim_C2_filter_correctness (units : List Unit) (q : String) :
    (∀ u : Unit,
        u ∈ filterUnits units (toLowerCase q) ↔
          u ∈ units ∧ (toLowerCase q).data <:+: (toLowerCase u.name).data)
  ∧ filterUnits units "" = units
  ∧ (filterUnits units (toLowerCase q)).Sublist units :=
  ⟨fun u => mem_filterUnits units (toLowerCase q) u,
   filterUnits_empty units,
   filterUnits_sublist units (toLowerCase q)⟩

/-- C3 counterexample: run a report into the view, then fail a re-run —
the state still holds the previously acquired report object, so the claim
that no stale report data remains held by the view state is false. -/
theorem claim_C3_counterexample :
    (Objdiff.handleRunReport ⟨some "objdiff-cli command failed.", none⟩ loadedState).report
        = loadedState.report
      ∧ loadedState.report ≠ none := by
  constructor
  · exact Objdiff.handleRunReport_error_report loadedState _ none
  · rw [loadedState, Objdiff.handleRunReport_success_report]
    simp

/-- C3 amended: after a failed run the previously acquired report object
remains held in the view state (it is not discarded), but every surface
shows the error placeholder with summary and table hidden, so the prior
report's contents are not displayed. -/
theorem claim_C3_amended (st : Objdiff.St) (dst : Dash.St) (msg : String)
    (rep? : Option Report) :
    ((Objdiff.handleRunReport ⟨some msg, rep?⟩ st).report = st.report
      ∧ (Objdiff.handleRunReport ⟨some msg, rep?⟩ st).placeholderText = "Error: " ++ msg
      ∧ (Objdiff.handleRunReport ⟨some msg, rep?⟩ st).summaryHidden = true
      ∧ (Objdiff.handleRunReport ⟨some msg, rep?⟩ st).tableHidden = true
      ∧ (Objdiff.handleRunReport ⟨some msg, rep?⟩ st).placeholderHidden = false)
  ∧ ((Objdiff.handleRunReport ⟨none, none⟩ st).report = st.report
      ∧ (Objdiff.handleRunReport ⟨none, none⟩ st).placeholderText
          = "Error: The objdiff command did not return a valid report.")
  ∧ ((Dash.handleDashboardRunReport ⟨some msg, rep?⟩ dst).dashboardReport
        = dst.dashboardReport
      ∧ (Dash.handleDashboardRunReport ⟨some msg, rep?⟩ dst).placeholderText
          = "Error: " ++ msg
      ∧ (Dash.handleDashboardRunReport ⟨some msg, rep?⟩ dst).summaryHidden = true
      ∧ (Dash.handleDashboardRunReport ⟨some msg, rep?⟩ dst).tableHidden = true
      ∧ (Dash.handleDashboardRunReport ⟨some msg, rep?⟩ dst).placeholderHidden = false) := by
  obtain ⟨h1, h2, h3, h4, _⟩ := Objdiff.handleRunReport_error_view st msg rep?
  obtain ⟨g1, g2, g3, g4, g5, _⟩ := Dash.handleDashboardRunReport_error dst msg rep?
  obtain ⟨n1, n2⟩ := Objdiff.handleRunReport_noreport st
  exact ⟨⟨Objdiff.handleRunReport_error_report st msg rep?, h1, h2, h3, h4⟩,
    ⟨n1, n2⟩, ⟨g1, g2, g3, g4, g5⟩⟩

/-- C4 counterexample: tool output that is valid JSON but lacks the
`units` field (indeed is not a report object at all) is not rejected —
the handler returns it as the report with no error. -/
theorem claim_C4_counterexample :
    Main.runReportHandler (some "C:/proj") (some "objdiff-cli.exe") 0
        (some (Main.Json.obj [("foo", Main.Json.num 1)])) "unexpected token"
      = { error := none, report := some (Main.Json.obj [("foo", Main.Json.num 1)]) }
  ∧ (Main.Json.obj [("foo", Main.Json.num 1)]).hasField "units" = false := by
  constructor
  · rfl
  · rfl

/-- C4 amended: the handler rejects only tool output on which
`JSON.parse` throws; any successfully parsed JSON value — whatever its
shape, `units` field or not — is returned as the report without schema
validation, and the standalone renderer adds only a truthiness guard
that turns an absent report into its own error message. -/
theorem claim_C4_amended (p o m : String) (j : Main.Json) (st : Objdiff.St) :
    Main.runReportHandler (some p) (some o) 0 (some j) m = { error := none, report := some j }
  ∧ Main.runReportHandler (some p) (some o) 0 none m
      = { error := some ("Failed to run or parse report: " ++ m), report := none }
  ∧ (Objdiff.handleRunReport ⟨none, none⟩ st).placeholderText
      = "Error: The objdiff command did not return a valid report." := by
  refine ⟨?_, ?_, (Objdiff.handleRunReport_noreport st).2⟩
  · simp [Main.runReportHandler]
  · simp [Main.runReportHandler]

/-- C7: a successful run always resets the expansion set and the filter
query, whatever they held before — on both surfaces. -/
theorem claim_C7_replacement_clears_state (st : Objdiff.St) (dst : Dash.St) (rep : Report) :
    (Objdiff.handleRunReport ⟨none, some rep⟩ st).expandedRows = []
  ∧ (Objdiff.handleRunReport ⟨none, some rep⟩ st).filterQuery = ""
  ∧ (Dash.handleDashboardRunReport ⟨none, some rep⟩ dst).dashboardExpandedRows = []
  ∧ (Dash.handleDashboardRunReport ⟨none, some rep⟩ dst).dashboardFilterQuery = "" :=
  ⟨Objdiff.handleRunReport_success_expandedRows st rep,
   Objdiff.handleRunReport_success_filterQuery st rep,
   Dash.handleDashboardRunReport_success_expandedRows dst rep,
   Dash.handleDashboardRunReport_success_filterQuery dst rep⟩

/-- C10: sorting by a key that is not a property of the unit objects
compares `undefined` with `undefined` on every pair, so the comparator
returns `0` everywhere and the sort leaves the order untouched. -/
theorem claim_C10_unknown_key_noop (key : String) (h1 : key ≠ "name")
    (h2 : key ≠ "match_percent") (h3 : key ≠ "symbols") (dir : SortDir)
    (units : List Unit) :
    sortUnits key dir units = units
  ∧ ∀ a b : Unit, unitCompare key dir a b = 0 :=
  ⟨sortUnits_other_eq_self key h1 h2 h3 dir units,
   fun a b => unitCompare_other_eq_zero key h1 h2 h3 dir a b⟩

/-- C10 witness: the concrete key `"size"` with the scenario's units. -/
theorem claim_C10_witness :
    sortUnits "size" SortDir.asc [unitA, unitB] = [unitA, unitB]
  ∧ ∀ a b : Unit, unitCompare "size" SortDir.asc a b = 0 :=
  claim_C10_unknown_key_noop "size" (by decide) (by decide) (by decide)
    SortDir.asc [unitA, unitB]

/-- C5 counterexample: two symbols that differ only in their byte sizes
produce the same dashboard detail sub-row, so the dashboard surface does
not show `base_size`/`target_size` — the claim that the sizes are shown
on both rendering surfaces is false. -/
theorem claim_C5_counterexample :
    Dash.renderSymbolLi
        { name := "fn1", match_percent := 0, base_size := 100, target_size := 120 }
      = Dash.renderSymbolLi
          { name := "fn1", match_percent := 0, base_size := 999, target_size := 888 }
  ∧ ({ name := "fn1", match_percent := 0, base_size := 100, target_size := 120 }
        : Symbol).base_size
      ≠ ({ name := "fn1", match_percent := 0, base_size := 999, target_size := 888 }
        : Symbol).base_size :=
  ⟨rfl, by decide⟩

/-- C5 amended: for an expanded mismatched unit both surfaces emit
exactly one detail sub-row per symbol with `match_percent < 1.0` (fully
matched symbols omitted); on the standalone page each sub-row shows the
symbol's name, its percentage to two decimals, and its `base_size` and
`target_size` in bytes, while the dashboard sub-row shows only the name
and the percentage and is independent of the sizes. -/
theorem claim_C5_detail_rows (st : Objdiff.St) (dst : Dash.St) (u : Unit)
    (hmis : u.match_percent < 1)
    (hexp : st.expandedRows.contains u.name = true)
    (hdexp : dst.dashboardExpandedRows.contains u.name = true) :
    Objdiff.unitItems st u
      = [TableItem.unitRow (Objdiff.unitRowOf u),
         TableItem.detailsRow (Objdiff.renderDetailsRowLis u)]
  ∧ (Objdiff.renderDetailsRowLis u).length
      = u.symbols.countP (fun s => decide (s.match_percent < 1))
  ∧ (∀ s ∈ u.symbols, s.match_percent < 1 →
        Objdiff.renderSymbolLi s ∈ Objdiff.renderDetailsRowLis u)
  ∧ (∀ li ∈ Objdiff.renderDetailsRowLis u,
        ∃ s, s ∈ u.symbols ∧ s.match_percent < 1 ∧ li = Objdiff.renderSymbolLi s)
  ∧ (∀ s : Symbol,
        s.name.data <:+: (Objdiff.renderSymbolLi s).data
      ∧ (toFixed2 (s.match_percent * 100)).data <:+: (Objdiff.renderSymbolLi s).data
      ∧ (toString s.base_size).data <:+: (Objdiff.renderSymbolLi s).data
      ∧ (toString s.target_size).data <:+: (Objdiff.renderSymbolLi s).data)
  ∧ Dash.unitItems dst u
      = [TableItem.unitRow (Dash.unitRowOf u),
         TableItem.detailsRow (Dash.renderDetailsRowLis u)]
  ∧ (Dash.renderDetailsRowLis u).length
      = u.symbols.countP (fun s => decide (s.match_percent < 1))
  ∧ (∀ s : Symbol,
        s.name.data <:+: (Dash.renderSymbolLi s).data
      ∧ (toFixed2 (s.match_percent * 100)).data <:+: (Dash.renderSymbolLi s).data)
  ∧ (∀ s t : Symbol, s.name = t.name → s.match_percent = t.match_percent →
        Dash.renderSymbolLi s = Dash.renderSymbolLi t) := by
  have hexp2 : u.name ∈ st.expandedRows := by simpa using hexp
  have hdexp2 : u.name ∈ dst.dashboardExpandedRows := by simpa using hdexp
  refine ⟨?_, ?_, ?_, ?_, ?_, ?_, ?_, ?_, ?_⟩
  · simp [Objdiff.unitItems, hmis, hexp2]
  · simp [Objdiff.renderDetailsRowLis, List.countP_eq_length_filter]
  · intro s hs hlt
    apply List.mem_map_of_mem
    rw [List.mem_filter]
    exact ⟨hs, decide_eq_true hlt⟩
  · intro li hli
    obtain ⟨s, hsf, h⟩ := List.mem_map.mp hli
    obtain ⟨hs, hp⟩ := List.mem_filter.mp hsf
    exact ⟨s, hs, of_decide_eq_true hp, h.symm⟩
  · exact fun s => ⟨name_in_li s, pct_in_li s, base_in_li s, target_in_li s⟩
  · simp [Dash.unitItems, hmis, hdexp2]
  · simp [Dash.renderDetailsRowLis, List.countP_eq_length_filter]
  · exact fun s => ⟨name_in_dash_li s, pct_in_dash_li s⟩
  · intro s t hn hm
    simp [Dash.renderSymbolLi, hn, hm]

/-- C5 witness: unit `b.o` expanded on both surfaces. -/
theorem claim_C5_witness :
    Objdiff.unitItems (Objdiff.handleRowToggle "b.o" loadedState) unitB
      = [TableItem.unitRow (Objdiff.unitRowOf unitB),
         TableItem.detailsRow (Objdiff.renderDetailsRowLis unitB)] :=
  (claim_C5_detail_rows (Objdiff.handleRowToggle "b.o" loadedState) sampleDashState
    unitB (by norm_num [unitB])
    (by rw [toggled_expandedRows]; rfl) (by rfl)).1

/-- C6: a unit's status label is `Matched` exactly when its
`match_percent` equals `1.0` and `Mismatch` for every other value of the
model's domain, and a fully matched unit is never rendered clickable and
never emits a detail section, whatever its symbols and whatever the
expansion state — on both surfaces. -/
theorem claim_C6_status_classification (u : Unit) (st : Objdiff.St) (dst : Dash.St)
    (hle : u.match_percent ≤ 1) :
    ((Objdiff.unitRowOf u).statusLabel = "Matched" ↔ u.match_percent = 1)
  ∧ (u.match_percent ≠ 1 → (Objdiff.unitRowOf u).statusLabel = "Mismatch")
  ∧ (u.match_percent = 1 →
      isExpandableRow (Objdiff.unitRowOf u) = false
    ∧ Objdiff.unitItems st u = [TableItem.unitRow (Objdiff.unitRowOf u)])
  ∧ ((Dash.unitRowOf u).statusLabel = "Matched" ↔ u.match_percent = 1)
  ∧ (u.match_percent ≠ 1 → (Dash.unitRowOf u).statusLabel = "Mismatch")
  ∧ (u.match_percent = 1 →
      isExpandableRow (Dash.unitRowOf u) = false
    ∧ Dash.unitItems dst u = [TableItem.unitRow (Dash.unitRowOf u)]) := by
  have hdiff : ("Mismatch" : String) ≠ "Matched" := by decide
  by_cases hm : u.match_percent < 1
  · have hne : u.match_percent ≠ 1 := ne_of_lt hm
    refine ⟨?_, ?_, ?_, ?_, ?_, ?_⟩
    · simp [Objdiff.unitRowOf, hm, hdiff, hne]
    · intro _
      simp [Objdiff.unitRowOf, hm]
    · intro h1
      exact absurd h1 hne
    · simp [Dash.unitRowOf, hm, hdiff, hne]
    · intro _
      simp [Dash.unitRowOf, hm]
    · intro h1
      exact absurd h1 hne
  · have heq : u.match_percent = 1 := le_antisymm hle (not_lt.mp hm)
    refine ⟨?_, ?_, ?_, ?_, ?_, ?_⟩
    · simp [Objdiff.unitRowOf, hm, heq]
    · intro h1
      exact absurd heq h1
    · intro _
      constructor
      · rw [isExpandableRow,
          show (Objdiff.unitRowOf u).rowClass = "" by simp [Objdiff.unitRowOf, hm]]
        decide
      · simp [Objdiff.unitItems, hm]
    · simp [Dash.unitRowOf, hm, heq]
    · intro h1
      exact absurd heq h1
    · intro _
      constructor
      · rw [isExpandableRow,
          show (Dash.unitRowOf u).rowClass = "" by simp [Dash.unitRowOf, hm]]
        decide
      · simp [Dash.unitItems, hm]

/-- C6 witness: the fully matched unit `a.o`. -/
theorem claim_C6_witness :
    (Objdiff.unitRowOf unitA).statusLabel = "Matched" ↔ unitA.match_percent = 1 :=
  (claim_C6_status_classification unitA Objdiff.initialState sampleDashState
    (by norm_num [unitA])).1

/-- C8: on the spec's concrete two-unit report, the summary shows
`50.00%` and `1 / 2`; the default sort (`match_percent` ascending, as
installed by a successful run into the initial state) orders `b.o`
before `a.o`; `a.o` is not rendered expandable; and with `b.o` expanded
the table holds exactly one detail sub-row, which shows `fn1`, `0.00%`
and `100 / 120 bytes`, `fn2` being omitted. -/
theorem claim_C8_concrete_scenario :
    Objdiff.summaryTexts sampleReport = ("50.00%", "1 / 2")
  ∧ loadedState.report = some { sampleReport with units := [unitB, unitA] }
  ∧ isExpandableRow (Objdiff.unitRowOf unitA) = false
  ∧ Objdiff.renderTableItems (Objdiff.handleRowToggle "b.o" loadedState)
      = [TableItem.unitRow (Objdiff.unitRowOf unitB),
         TableItem.detailsRow [Objdiff.renderSymbolLi fn1],
         TableItem.unitRow (Objdiff.unitRowOf unitA)]
  ∧ Objdiff.renderSymbolLi fn1
      = "<li class=\"font-mono text-xs py-1 px-2 border-b\"><strong>fn1</strong> - 0.00% (100 / 120 bytes)</li>" :=
  ⟨summary_sample, loadedState_report, rowA_not_expandable,
   tableItems_sample, renderSymbolLi_fn1⟩

/-- C9: a non-zero exit code from the comparison tool makes the handler
resolve with the `objdiff-cli command failed.` error and no report, and
both surfaces then enter the error view: the placeholder shows the error
message and the summary and table stay hidden. -/
theorem claim_C9_tool_failure (p o m : String) (parse : Option Main.Json) (c : ℤ)
    (st : Objdiff.St) (dst : Dash.St) (hc : c ≠ 0) :
    (Main.runReportHandler (some p) (some o) c parse m).error
        = some "objdiff-cli command failed."
  ∧ (Main.runReportHandler (some p) (some o) c parse m).report = none
  ∧ ((Objdiff.handleRunReport ⟨some "objdiff-cli command failed.", none⟩ st).placeholderText
        = "Error: objdiff-cli command failed."
    ∧ (Objdiff.handleRunReport ⟨some "objdiff-cli command failed.", none⟩ st).summaryHidden
        = true
    ∧ (Objdiff.handleRunReport ⟨some "objdiff-cli command failed.", none⟩ st).tableHidden
        = true
    ∧ (Objdiff.handleRunReport ⟨some "objdiff-cli command failed.", none⟩ st).placeholderHidden
        = false)
  ∧ ((Dash.handleDashboardRunReport ⟨some "objdiff-cli command failed.", none⟩ dst).placeholderText
        = "Error: objdiff-cli command failed."
    ∧ (Dash.handleDashboardRunReport ⟨some "objdiff-cli command failed.", none⟩ dst).summaryHidden
        = true
    ∧ (Dash.handleDashboardRunReport ⟨some "objdiff-cli command failed.", none⟩ dst).tableHidden
        = true
    ∧ (Dash.handleDashboardRunReport ⟨some "objdiff-cli command failed.", none⟩ dst).placeholderHidden
        = false) := by
  obtain ⟨h1, h2, h3, h4, _⟩ :=
    Objdiff.handleRunReport_error_view st "objdiff-cli command failed." none
  obtain ⟨_, g2, g3, g4, g5, _⟩ :=
    Dash.handleDashboardRunReport_error dst "objdiff-cli command failed." none
  refine ⟨?_, ?_, ⟨h1.trans (by rfl), h2, h3, h4⟩, ⟨g2.trans (by rfl), g3, g4, g5⟩⟩
  · simp [Main.runReportHandler, hc]
  · simp [Main.runReportHandler, hc]

/-- C9 witness: exit code 1 with configured paths. -/
theorem claim_C9_witness :
    (Main.runReportHandler (some "C:/proj") (some "objdiff-cli.exe") 1 none "").error
      = some "objdiff-cli command failed." :=
  (claim_C9_tool_failure "C:/proj" "objdiff-cli.exe" "" none 1
    Objdiff.initialState sampleDashState (by decide)).1

end Decomp
